import Mathlib

/-!
Shallow embedding of the credential and account-recovery core of the
Aurora backend (Go): password utilities, JWT issuance and validation,
the user directory and recovery-token store, and the authentication
orchestrator, together with theorems settling the specification claims.

Conventions of the embedding:
* Go `time.Time` values are modelled as `Int` Unix seconds; `time.Duration`
  as `Int` seconds.
* UUIDs are modelled as opaque `Nat` identifiers.
* Database-backed repositories are modelled as pure functions over an
  explicit `Store` (lists of rows); GORM `First`/`Where` queries become
  `List.find?`/`List.filter` over the row list, and `Save`/`Updates`
  become row-wise maps keyed the same way the SQL `WHERE` clause is.
* bcrypt is modelled by its library contract: `Verify(Hash(p), p)` holds
  and hashes determine the password (an injective tag), since the core
  never inspects hash internals.
* Fallible Go functions returning `error` become `Except`-valued
  functions.
-/

deriving instance DecidableEq for Except

namespace Aurora

/-- `models.UserRole` (`CLIENT`, `PROFESSIONAL`, `STAFF`, `ADMIN`). -/
inductive UserRole where
  | client
  | professional
  | staff
  | admin
deriving DecidableEq, Repr

/-- `models.UserStatus` (`ACTIVE`, `INACTIVE`, `PENDING`, `BLOCKED`). -/
inductive UserStatus where
  | active
  | inactive
  | pending
  | blocked
deriving DecidableEq, Repr

/-- `models.TokenChannel` (`EMAIL`, `SMS`, `WHATSAPP`). -/
inductive TokenChannel where
  | email
  | sms
  | whatsapp
deriving DecidableEq, Repr

/-- `models.TokenStatus` (`ACTIVE`, `USED`, `EXPIRED`, `REVOKED`). -/
inductive TokenStatus where
  | active
  | used
  | expired
  | revoked
deriving DecidableEq, Repr

/-! ## Password utility (`src/utils/password_util.go`) -/

/-- Errors of `PasswordUtil`. -/
inductive PwError where
  | passwordTooShort
  | passwordTooLong
deriving DecidableEq, Repr

/-- `ErrPasswordTooWeak` kept separate so strength validation can report
either a length error or weakness, as the Go code does. -/
inductive StrengthError where
  | lengthError (e : PwError)
  | passwordTooWeak
deriving DecidableEq, Repr

/-- `MinPasswordLength` = 8. -/
def MinPasswordLength : Nat := 8

/-- `MaxPasswordLength` = 72. -/
def MaxPasswordLength : Nat := 72

/-- UTF-8 byte size of one rune; Go `len(string)` counts bytes. -/
def charUtf8Size (c : Char) : Nat :=
  if c.val < 0x80 then 1
  else if c.val < 0x800 then 2
  else if c.val < 0x10000 then 3
  else 4

/-- Go `len(password)`: the UTF-8 byte length of the string. -/
def goLen (s : List Char) : Nat :=
  s.foldr (fun c n => charUtf8Size c + n) 0

/-- `PasswordUtil.ValidatePasswordLength`. -/
def validatePasswordLength (password : List Char) : Except PwError Unit :=
  if goLen password < MinPasswordLength then .error .passwordTooShort
  else if MaxPasswordLength < goLen password then .error .passwordTooLong
  else .ok ()

/-- The punctuation set of `ValidatePasswordStrength`:
`"!@#$%^&*()-_[]\x7b\x7d|;:,.<>?/"`. -/
def specialRunes : List Char := "!@#$%^&*()-_[]\x7b\x7d|;:,.<>?/".toList

/-- Accumulator for the per-rune `switch` of `ValidatePasswordStrength`. -/
structure ClassFlags where
  hasUpper : Bool
  hasLower : Bool
  hasNumber : Bool
  hasSpecial : Bool
deriving DecidableEq, Repr

/-- Go `'A' <= char && char <= 'Z'` (rune code points 65–90). -/
def isUpperRune (c : Char) : Bool := 65 ≤ c.toNat && c.toNat ≤ 90

/-- Go `'a' <= char && char <= 'z'` (rune code points 97–122). -/
def isLowerRune (c : Char) : Bool := 97 ≤ c.toNat && c.toNat ≤ 122

/-- Go `'0' <= char && char <= '9'` (rune code points 48–57). -/
def isNumberRune (c : Char) : Bool := 48 ≤ c.toNat && c.toNat ≤ 57

/-- Go `strings.ContainsRune("!@#$%^&*()-_[]\x7b\x7d|;:,.<>?/", char)`. -/
def isSpecialRune (c : Char) : Bool := specialRunes.contains c

/-- One step of the rune loop: the Go `switch` takes the first matching
case (the four cases are pairwise disjoint). -/
def classStep (f : ClassFlags) (c : Char) : ClassFlags :=
  if isUpperRune c then { f with hasUpper := true }
  else if isLowerRune c then { f with hasLower := true }
  else if isNumberRune c then { f with hasNumber := true }
  else if isSpecialRune c then { f with hasSpecial := true }
  else f

/-- The score tallied after the loop: one point per class present. -/
def ClassFlags.score (f : ClassFlags) : Nat :=
  (if f.hasUpper then 1 else 0) + (if f.hasLower then 1 else 0) +
    (if f.hasNumber then 1 else 0) + (if f.hasSpecial then 1 else 0)

/-- `PasswordUtil.ValidatePasswordStrength`: length check, then the rune
loop, then `score < 3 → ErrPasswordTooWeak`. -/
def validatePasswordStrength (password : List Char) : Except StrengthError Unit :=
  match validatePasswordLength password with
  | .error e => .error (.lengthError e)
  | .ok () =>
    let flags := password.foldl classStep ⟨false, false, false, false⟩
    if flags.score < 3 then .error .passwordTooWeak
    else .ok ()

/-- bcrypt hash output, modelled as an injective tag on the password
(`GenerateFromPassword` contract: the hash verifies exactly its input). -/
def bcryptHash (password : List Char) : List Char :=
  '$' :: '2' :: 'a' :: '$' :: password

/-- `PasswordUtil.HashPassword`: length validation, then bcrypt. -/
def hashPassword (password : List Char) : Except PwError (List Char) :=
  match validatePasswordLength password with
  | .error e => .error e
  | .ok () => .ok (bcryptHash password)

/-- `PasswordUtil.VerifyPassword` (`bcrypt.CompareHashAndPassword`):
succeeds iff the candidate reproduces the hash. -/
def verifyPassword (hashed : List Char) (password : List Char) : Bool :=
  hashed == bcryptHash password

/-! ## JWT utility (`src/utils/jwt_util.go`, library `dgrijalva/jwt-go`) -/

/-- `TokenExpirationAccess` = 15 minutes, in seconds. -/
def TokenExpirationAccess : Int := 15 * 60

/-- `TokenExpirationRefresh` = 7 days, in seconds. -/
def TokenExpirationRefresh : Int := 7 * 24 * 60 * 60

/-- `utils.JWTConfig`. -/
structure JWTConfig where
  accessSecret : String
  refreshSecret : String
  issuer : String
deriving DecidableEq, Repr

/-- `utils.Claims`: user id, role, type discriminator, and the embedded
`jwt.StandardClaims` fields the code sets. -/
structure Claims where
  userID : Nat
  role : UserRole
  type_ : String
  expiresAt : Int
  issuedAt : Int
  issuer : String
deriving DecidableEq, Repr

/-- The two signing methods named in the source: `jwt.SigningMethodHS256`
(an HMAC method) and `jwt.SigningMethodES256` (an ECDSA method). -/
inductive SigMethod where
  | hs256
  | es256
deriving DecidableEq, Repr

/-- Key material handed to `SignedString`. The source always passes
`[]byte(secret)`; an ECDSA private key is the type `SigningMethodES256`
would need. -/
inductive JwtKey where
  | bytes (secret : String)
  | ecdsaPrivate (keyId : Nat)
deriving DecidableEq, Repr

/-- A produced compact JWT: its payload and header method, plus the key
material used to sign (standing in for the signature bytes). -/
structure SignedJwt where
  claims : Claims
  method : SigMethod
  sigKey : JwtKey
deriving DecidableEq, Repr

/-- Errors around token generation. `invalidKeyType` is jwt-go's
`ErrInvalidKeyType` ("key is of invalid type"). -/
inductive JwtGenError where
  | invalidKeyType
deriving DecidableEq, Repr

/-- `jwt-go` `Token.SignedString`: dispatches to `Method.Sign`.
`SigningMethodHMAC.Sign` accepts a `[]byte` key; `SigningMethodECDSA.Sign`
requires an `*ecdsa.PrivateKey` and fails with `ErrInvalidKeyType` on any
other key type. -/
def signedString (method : SigMethod) (key : JwtKey) (claims : Claims) :
    Except JwtGenError SignedJwt :=
  match method, key with
  | .hs256, .bytes s => .ok ⟨claims, .hs256, .bytes s⟩
  | .hs256, .ecdsaPrivate _ => .error .invalidKeyType
  | .es256, .ecdsaPrivate k => .ok ⟨claims, .es256, .ecdsaPrivate k⟩
  | .es256, .bytes _ => .error .invalidKeyType

/-- `JWTUtil.GenerateAccessToken`: HS256 over `[]byte(AccessSecret)`,
type `"access"`, expiry `now + TokenExpirationAccess`. -/
def generateAccessToken (cfg : JWTConfig) (now : Int) (userID : Nat)
    (role : UserRole) : Except JwtGenError SignedJwt :=
  signedString .hs256 (.bytes cfg.accessSecret)
    ⟨userID, role, "access", now + TokenExpirationAccess, now, cfg.issuer⟩

/-- `JWTUtil.GenerateRefreshToken`: the source passes
`jwt.SigningMethodES256` together with `[]byte(RefreshSecret)`,
type `"refresh"`, expiry `now + TokenExpirationRefresh`. -/
def generateRefreshToken (cfg : JWTConfig) (now : Int) (userID : Nat)
    (role : UserRole) : Except JwtGenError SignedJwt :=
  signedString .es256 (.bytes cfg.refreshSecret)
    ⟨userID, role, "refresh", now + TokenExpirationRefresh, now, cfg.issuer⟩

/-- `JWTUtil.GenerateTokenPair`: access first, then refresh; the first
error aborts the pair. -/
def generateTokenPair (cfg : JWTConfig) (now : Int) (userID : Nat)
    (role : UserRole) : Except JwtGenError (SignedJwt × SignedJwt) :=
  match generateAccessToken cfg now userID role with
  | .error e => .error e
  | .ok access =>
    match generateRefreshToken cfg now userID role with
    | .error e => .error e
    | .ok refresh => .ok (access, refresh)

/-- Validation outcomes of `JWTUtil.validateToken`. `invalidToken` is
`utils.ErrInvalidToken`, `expiredToken` is `utils.ErrExpiredToken`;
`parseError` stands for a `*jwt.ValidationError` returned raw by the
final `return nil, err` branch (keyfunc rejection or bad signature). -/
inductive JwtValError where
  | invalidToken
  | expiredToken
  | parseError
deriving DecidableEq, Repr

/-- `JWTUtil.validateToken`: the keyfunc rejects any non-HMAC header
method (surfaced as the raw parse error, since the `*ValidationError`
wrapper is neither `jwt.ErrSignatureInvalid` nor expiry-flagged); a
signature mismatch likewise surfaces as the raw validation error; an
elapsed expiry (`StandardClaims.Valid`, `now > exp`) yields
`ErrExpiredToken`; a surviving token with the wrong `Type` yields
`ErrInvalidToken`. -/
def validateToken (tok : SignedJwt) (secret : String) (tokenType : String)
    (now : Int) : Except JwtValError Claims :=
  if tok.method ≠ .hs256 then .error .parseError
  else if tok.sigKey ≠ .bytes secret then .error .parseError
  else if tok.claims.expiresAt < now then .error .expiredToken
  else if tok.claims.type_ ≠ tokenType then .error .invalidToken
  else .ok tok.claims

/-- `JWTUtil.ValidateAccessToken`. -/
def validateAccessToken (cfg : JWTConfig) (tok : SignedJwt) (now : Int) :
    Except JwtValError Claims :=
  validateToken tok cfg.accessSecret "access" now

/-- `JWTUtil.ValidateRefreshToken`. -/
def validateRefreshToken (cfg : JWTConfig) (tok : SignedJwt) (now : Int) :
    Except JwtValError Claims :=
  validateToken tok cfg.refreshSecret "refresh" now

/-! ## Data model rows (`src/models`) -/

/-- `models.User`, restricted to the fields the authentication core reads
or writes. -/
structure User where
  id : Nat
  email : String
  phone : String
  name : String
  passwordHash : List Char
  role : UserRole
  status : UserStatus
  failedLoginCount : Nat
  lastLoginAt : Option Int
deriving DecidableEq, Repr

/-- `models.PasswordResetToken`, restricted to the fields the core reads
or writes. -/
structure ResetToken where
  id : Nat
  userId : Nat
  token : String
  channel : TokenChannel
  status : TokenStatus
  expiresAt : Int
  usedAt : Option Int
  failedAttempts : Nat
  ipAddress : String
  userAgent : String
  createdAt : Int
deriving DecidableEq, Repr

/-- `PasswordResetToken.IsValid`: `Status == ACTIVE && time.Now().Before(ExpiresAt)`. -/
def ResetToken.isValid (t : ResetToken) (now : Int) : Bool :=
  t.status == .active && now < t.expiresAt

/-- `PasswordResetToken.MarkAsUsed`. -/
def ResetToken.markAsUsed (t : ResetToken) (now : Int) : ResetToken :=
  { t with status := .used, usedAt := some now }

/-- `PasswordResetToken.MarkAsExpired`. -/
def ResetToken.markAsExpired (t : ResetToken) : ResetToken :=
  { t with status := .expired }

/-- `PasswordResetToken.IncrementFailedAttempts`: increments, then
revokes once the counter reaches 5. -/
def ResetToken.incrementFailedAttempts (t : ResetToken) : ResetToken :=
  let t := { t with failedAttempts := t.failedAttempts + 1 }
  if 5 ≤ t.failedAttempts then { t with status := .revoked } else t

/-- The database: the `users` and `password_reset_tokens` tables. -/
structure Store where
  users : List User
  tokens : List ResetToken
deriving DecidableEq, Repr

/-! ## User repository (`src/repositories/user_repository.go`) -/

/-- Repository error values relevant to the core. -/
inductive RepoError where
  | userNotFound
  | tokenNotFound
  | tokenAlreadyUsed
  | tokenExpired
  | tokenRevoked
deriving DecidableEq, Repr

/-- `UserRepositoryImpl.FindByID`: `WHERE id = ? AND status = 'ACTIVE'`,
first row or `ErrUserNotFound`. -/
def findByID (db : Store) (id : Nat) : Except RepoError User :=
  match db.users.find? (fun u => u.id == id && u.status == .active) with
  | some u => .ok u
  | none => .error .userNotFound

/-- `UserRepositoryImpl.FindByEmail`: `WHERE email = ? AND status = 'ACTIVE'`. -/
def findByEmail (db : Store) (email : String) : Except RepoError User :=
  match db.users.find? (fun u => u.email == email && u.status == .active) with
  | some u => .ok u
  | none => .error .userNotFound

/-- `UserRepositoryImpl.FindByPhone`: `WHERE phone = ? AND status = 'ACTIVE'`. -/
def findByPhone (db : Store) (phone : String) : Except RepoError User :=
  match db.users.find? (fun u => u.phone == phone && u.status == .active) with
  | some u => .ok u
  | none => .error .userNotFound

/-- `UserRepositoryImpl.Update`: existence check by id, then `Save`
(replace the row(s) whose primary key matches). -/
def updateUser (db : Store) (user : User) : Store × Except RepoError Unit :=
  if db.users.any (fun u => u.id == user.id) then
    ({ db with users := db.users.map (fun u => if u.id == user.id then user else u) },
      .ok ())
  else (db, .error .userNotFound)

/-- `UserRepositoryImpl.IncrementFailedLoginCount`:
`UPDATE users SET failed_login_count = failed_login_count + 1 WHERE id = ?`. -/
def incrementFailedLoginCount (db : Store) (id : Nat) : Store :=
  { db with
    users := db.users.map (fun u =>
      if u.id == id then { u with failedLoginCount := u.failedLoginCount + 1 } else u) }

/-- `UserRepositoryImpl.ResetFailedLoginCount`. -/
def resetFailedLoginCount (db : Store) (id : Nat) : Store :=
  { db with
    users := db.users.map (fun u =>
      if u.id == id then { u with failedLoginCount := 0 } else u) }

/-- `UserRepositoryImpl.UpdateLastLogin`. -/
def updateLastLogin (db : Store) (id : Nat) (now : Int) : Store :=
  { db with
    users := db.users.map (fun u =>
      if u.id == id then { u with lastLoginAt := some now } else u) }

/-! ## Token repository (`src/repositories/token_repository.go`) -/

/-- `TokenRepository.Create`: stamp `created_at`/`updated_at`, insert. -/
def createToken (db : Store) (t : ResetToken) (now : Int) : Store :=
  { db with tokens := db.tokens ++ [{ t with createdAt := now }] }

/-- `TokenRepository.FindByToken`: `WHERE token = ?` first row; a
terminal status is reported as its status-specific error; an Active row
past its expiry is lazily marked Expired, saved, and reported
`ErrTokenExpired`. Returns the possibly-updated store alongside the
result, since the lazy transition is persisted. -/
def findByToken (db : Store) (secret : String) (now : Int) :
    Store × Except RepoError ResetToken :=
  match db.tokens.find? (fun t => t.token == secret) with
  | none => (db, .error .tokenNotFound)
  | some t =>
    match t.status with
    | .used => (db, .error .tokenAlreadyUsed)
    | .expired => (db, .error .tokenExpired)
    | .revoked => (db, .error .tokenRevoked)
    | .active =>
      if t.expiresAt < now then
        let marked := t.markAsExpired
        ({ db with tokens := db.tokens.map (fun r => if r.id == t.id then marked else r) },
          .error .tokenExpired)
      else (db, .ok t)

/-- `TokenRepository.InvalidateAllUserTokens`:
`UPDATE ... SET status = 'EXPIRED' WHERE user_id = ? AND status = 'ACTIVE'`. -/
def invalidateAllUserTokens (db : Store) (userId : Nat) : Store :=
  { db with
    tokens := db.tokens.map (fun t =>
      if t.userId == userId && t.status == .active then { t with status := .expired }
      else t) }

/-- `TokenRepository.InvalidateToken`: fetch by id, set status
`REVOKED` unconditionally, save. -/
def invalidateToken (db : Store) (tokenId : Nat) : Store × Except RepoError Unit :=
  match db.tokens.find? (fun t => t.id == tokenId) with
  | none => (db, .error .tokenNotFound)
  | some t =>
    let revoked := { t with status := TokenStatus.revoked }
    ({ db with tokens := db.tokens.map (fun r => if r.id == t.id then revoked else r) },
      .ok ())

/-- `TokenRepository.MarkTokenAsUsed`: fetch by id, `MarkAsUsed`
unconditionally, save. -/
def markTokenAsUsed (db : Store) (tokenId : Nat) (now : Int) :
    Store × Except RepoError Unit :=
  match db.tokens.find? (fun t => t.id == tokenId) with
  | none => (db, .error .tokenNotFound)
  | some t =>
    let used := t.markAsUsed now
    ({ db with tokens := db.tokens.map (fun r => if r.id == t.id then used else r) },
      .ok ())

/-- `TokenRepository.IncrementFailedAttempts`: fetch by id,
`IncrementFailedAttempts` (auto-revoke at 5), save. -/
def incrementTokenFailedAttempts (db : Store) (tokenId : Nat) :
    Store × Except RepoError Unit :=
  match db.tokens.find? (fun t => t.id == tokenId) with
  | none => (db, .error .tokenNotFound)
  | some t =>
    let bumped := t.incrementFailedAttempts
    ({ db with tokens := db.tokens.map (fun r => if r.id == t.id then bumped else r) },
      .ok ())

/-- `TokenRepository.CountActiveTokensByUser`: despite its name, the
query is `WHERE user_id = ? AND created_at > ?` with no status filter;
`fromTime = now - timeWindow`. -/
def countActiveTokensByUser (db : Store) (userId : Nat) (timeWindow : Int)
    (now : Int) : Nat :=
  (db.tokens.filter (fun t => t.userId == userId && now - timeWindow < t.createdAt)).length

/-! ## Authentication orchestrator (`src/services/auth_service.go`) -/

/-- `services.AuthConfig`; durations in seconds. -/
structure AuthConfig where
  maxLoginAttempts : Nat
  loginLockDuration : Int
  resetTokenRateLimit : Nat
  resetTokenRateWindow : Int
  resetTokenEmailExpiration : Int
  resetTokenSMSExpiration : Int
deriving DecidableEq, Repr

/-- `services.DefaultAuthConfig`: 5 attempts, 1 h lock, limit 3 per 1 h
window, 15 min email expiry, 5 min SMS/WhatsApp expiry. -/
def defaultAuthConfig : AuthConfig :=
  { maxLoginAttempts := 5
    loginLockDuration := 3600
    resetTokenRateLimit := 3
    resetTokenRateWindow := 3600
    resetTokenEmailExpiration := 900
    resetTokenSMSExpiration := 300 }

/-- Errors of the notification dispatchers, as consumed by the core. -/
inductive SendError where
  | providerNotFound
  | deliveryFailure (code : Nat)
deriving DecidableEq, Repr

/-- The `error` values an orchestrator operation can return: the named
`services.Err*` sentinels, plus collaborator errors propagated as-is. -/
inductive ServiceError where
  | invalidLogin
  | userBlocked
  | userInactive
  | invalidToken
  | tooManyRequests
  | emailNotFound
  | phoneNotFound
  | passwordTooWeak
  | passwordConfirmation
  | repo (e : RepoError)
  | jwtGen (e : JwtGenError)
  | jwtVal (e : JwtValError)
  | pw (e : PwError)
  | send (e : SendError)
  | internal (code : Nat)
deriving DecidableEq, Repr

/-- What the `UserRepository` interface can answer a lookup with:
`ErrUserNotFound` (compared by sentinel in the orchestrator) or an opaque
internal/storage error. -/
inductive DirErr where
  | userNotFound
  | internal (code : Nat)
deriving DecidableEq, Repr

/-- Outcome of `AuthService.Login`, abstracted from the issued pair. -/
inductive LoginResult where
  | success
  | invalidLogin
  | userBlocked
  | userInactive
  | err (code : Nat)
deriving DecidableEq, Repr

/-- `AuthService.Login` at the collaborator boundary: the branch
structure of the source as a function of the directory's answer
(`findRes`), the bcrypt comparison outcome (`passwordOk`) and the JWT
pair generation outcome (`pairRes`). Branch order follows the source:
sentinel/other error, non-Active status (Blocked reported explicitly),
failed-login ceiling, password check, token issuance. -/
def loginFlow (findRes : Except DirErr User) (cfg : AuthConfig)
    (passwordOk : Bool) (pairRes : Except Nat Unit) : LoginResult :=
  match findRes with
  | .error .userNotFound => .invalidLogin
  | .error (.internal c) => .err c
  | .ok user =>
    if user.status ≠ .active then
      if user.status = .blocked then .userBlocked else .userInactive
    else if cfg.maxLoginAttempts ≤ user.failedLoginCount then .userBlocked
    else if !passwordOk then .invalidLogin
    else
      match pairRes with
      | .error c => .err c
      | .ok () => .success

/-- Outcome of a `ForgotPassword*` operation at the collaborator
boundary. `ok` is the Go `nil` return. -/
inductive ForgotResult where
  | ok
  | emailNotFound
  | phoneNotFound
  | userInactive
  | tooManyRequests
  | sendFailed (e : SendError)
  | err (code : Nat)
deriving DecidableEq, Repr

/-- `AuthService.ForgotPasswordEmail` at the collaborator boundary, with
each collaborator call's answer as a parameter, in call order: user
lookup, rate-limit count, bulk invalidation, secret generation, token
insert, dispatch. NOTE the count branch: on a storage error the source
executes `return nil` (success), not `return err`. -/
def forgotPasswordEmailFlow (findRes : Except DirErr User)
    (countRes : Except Nat Nat) (invalidateRes : Except Nat Unit)
    (genRes : Except Nat String) (createRes : Except Nat Unit)
    (sendRes : Except SendError Unit) (cfg : AuthConfig) : ForgotResult :=
  match findRes with
  | .error .userNotFound => .emailNotFound
  | .error (.internal c) => .err c
  | .ok user =>
    if user.status ≠ .active then .userInactive
    else
      match countRes with
      | .error _ => .ok
      | .ok count =>
        if cfg.resetTokenRateLimit ≤ count then .tooManyRequests
        else
          match invalidateRes with
          | .error c => .err c
          | .ok () =>
            match genRes with
            | .error c => .err c
            | .ok _ =>
              match createRes with
              | .error c => .err c
              | .ok () =>
                match sendRes with
                | .error e => .sendFailed e
                | .ok () => .ok

/-- `AuthService.ForgotPasswordSMS` at the collaborator boundary. NOTE
the invalidation branch: on a storage error the source executes
`return nil` (success), not `return err`. -/
def forgotPasswordSMSFlow (findRes : Except DirErr User)
    (countRes : Except Nat Nat) (invalidateRes : Except Nat Unit)
    (genRes : Except Nat String) (createRes : Except Nat Unit)
    (sendRes : Except SendError Unit) (cfg : AuthConfig) : ForgotResult :=
  match findRes with
  | .error .userNotFound => .phoneNotFound
  | .error (.internal c) => .err c
  | .ok user =>
    if user.status ≠ .active then .userInactive
    else
      match countRes with
      | .error c => .err c
      | .ok count =>
        if cfg.resetTokenRateLimit ≤ count then .tooManyRequests
        else
          match invalidateRes with
          | .error _ => .ok
          | .ok () =>
            match genRes with
            | .error c => .err c
            | .ok _ =>
              match createRes with
              | .error c => .err c
              | .ok () =>
                match sendRes with
                | .error e => .sendFailed e
                | .ok () => .ok

/-- `AuthService.Login` composed with the concrete `UserRepositoryImpl`,
bcrypt and JWT models: lookup (Active-filtered), status branches,
failed-login ceiling, password check (wrong password increments the
counter), counter reset + last-login update, pair issuance. -/
def login (db : Store) (cfg : AuthConfig) (jwtCfg : JWTConfig) (email : String)
    (password : List Char) (now : Int) :
    Store × Except ServiceError (User × SignedJwt × SignedJwt) :=
  match findByEmail db email with
  | .error .userNotFound => (db, .error .invalidLogin)
  | .error e => (db, .error (.repo e))
  | .ok user =>
    if user.status ≠ .active then
      if user.status = .blocked then (db, .error .userBlocked)
      else (db, .error .userInactive)
    else if cfg.maxLoginAttempts ≤ user.failedLoginCount then (db, .error .userBlocked)
    else if ¬ verifyPassword user.passwordHash password then
      (incrementFailedLoginCount db user.id, .error .invalidLogin)
    else
      let db1 := updateLastLogin (resetFailedLoginCount db user.id) user.id now
      match generateTokenPair jwtCfg now user.id user.role with
      | .error e => (db1, .error (.jwtGen e))
      | .ok pair => (db1, .ok (user, pair))

/-- `AuthService.RefreshToken` composed: refresh-credential validation,
user re-resolution, Active check, fresh pair issuance (rotation). -/
def refreshToken (db : Store) (jwtCfg : JWTConfig) (tok : SignedJwt) (now : Int) :
    Except ServiceError (SignedJwt × SignedJwt) :=
  match validateRefreshToken jwtCfg tok now with
  | .error e => .error (.jwtVal e)
  | .ok claims =>
    match findByID db claims.userID with
    | .error e => .error (.repo e)
    | .ok user =>
      if user.status ≠ .active then .error .userInactive
      else
        match generateTokenPair jwtCfg now user.id user.role with
        | .error e => .error (.jwtGen e)
        | .ok pair => .ok pair

/-- `AuthService.GetUserFromToken` composed: access-credential
validation then user resolution; no status branch of its own. -/
def getUserFromToken (db : Store) (jwtCfg : JWTConfig) (tok : SignedJwt)
    (now : Int) : Except ServiceError User :=
  match validateAccessToken jwtCfg tok now with
  | .error _ => .error .invalidToken
  | .ok claims =>
    match findByID db claims.userID with
    | .error e => .error (.repo e)
    | .ok user => .ok user

/-- `AuthService.ForgotPasswordEmail` composed with the concrete stores.
The random 32-char secret and the new row's generated id are parameters
(`secret`, `newId`); `sendRes` is the dispatcher's answer. Rate window:
`Config.ResetTokenRateWindow`; token expiry:
`Config.ResetTokenEmailExpiration`. -/
def forgotPasswordEmail (db : Store) (cfg : AuthConfig)
    (email clientIp userAgent : String) (secret : String) (newId : Nat)
    (sendRes : Except SendError Unit) (now : Int) :
    Store × Except ServiceError Unit :=
  match findByEmail db email with
  | .error .userNotFound => (db, .error .emailNotFound)
  | .error e => (db, .error (.repo e))
  | .ok user =>
    if user.status ≠ .active then (db, .error .userInactive)
    else
      let count := countActiveTokensByUser db user.id cfg.resetTokenRateWindow now
      if cfg.resetTokenRateLimit ≤ count then (db, .error .tooManyRequests)
      else
        let db1 := invalidateAllUserTokens db user.id
        let row : ResetToken :=
          { id := newId, userId := user.id, token := secret
            channel := .email, status := .active
            expiresAt := now + cfg.resetTokenEmailExpiration
            usedAt := none, failedAttempts := 0
            ipAddress := clientIp, userAgent := userAgent, createdAt := now }
        let db2 := createToken db1 row now
        match sendRes with
        | .error e => (db2, .error (.send e))
        | .ok () => (db2, .ok ())

/-- `AuthService.ForgotPasswordSMS` composed with the concrete stores.
NOTE: the source passes `Config.ResetTokenEmailExpiration` — not
`Config.ResetTokenRateWindow` — as the rate-limit window
(`CountActiveTokensByUser(user.ID, s.Config.ResetTokenEmailExpiration)`).
Token expiry: `Config.ResetTokenSMSExpiration`. -/
def forgotPasswordSMS (db : Store) (cfg : AuthConfig)
    (phone clientIp userAgent : String) (code : String) (newId : Nat)
    (sendRes : Except SendError Unit) (now : Int) :
    Store × Except ServiceError Unit :=
  match findByPhone db phone with
  | .error .userNotFound => (db, .error .phoneNotFound)
  | .error e => (db, .error (.repo e))
  | .ok user =>
    if user.status ≠ .active then (db, .error .userInactive)
    else
      let count := countActiveTokensByUser db user.id cfg.resetTokenEmailExpiration now
      if cfg.resetTokenRateLimit ≤ count then (db, .error .tooManyRequests)
      else
        let db1 := invalidateAllUserTokens db user.id
        let row : ResetToken :=
          { id := newId, userId := user.id, token := code
            channel := .sms, status := .active
            expiresAt := now + cfg.resetTokenSMSExpiration
            usedAt := none, failedAttempts := 0
            ipAddress := clientIp, userAgent := userAgent, createdAt := now }
        let db2 := createToken db1 row now
        match sendRes with
        | .error e => (db2, .error (.send e))
        | .ok () => (db2, .ok ())

/-- `AuthService.ForgotPasswordWhatsApp` composed with the concrete
stores. Rate window: `Config.ResetTokenRateWindow`; token expiry:
`Config.ResetTokenSMSExpiration`. -/
def forgotPasswordWhatsApp (db : Store) (cfg : AuthConfig)
    (phone clientIp userAgent : String) (code : String) (newId : Nat)
    (sendRes : Except SendError Unit) (now : Int) :
    Store × Except ServiceError Unit :=
  match findByPhone db phone with
  | .error .userNotFound => (db, .error .phoneNotFound)
  | .error e => (db, .error (.repo e))
  | .ok user =>
    if user.status ≠ .active then (db, .error .userInactive)
    else
      let count := countActiveTokensByUser db user.id cfg.resetTokenRateWindow now
      if cfg.resetTokenRateLimit ≤ count then (db, .error .tooManyRequests)
      else
        let db1 := invalidateAllUserTokens db user.id
        let row : ResetToken :=
          { id := newId, userId := user.id, token := code
            channel := .whatsapp, status := .active
            expiresAt := now + cfg.resetTokenSMSExpiration
            usedAt := none, failedAttempts := 0
            ipAddress := clientIp, userAgent := userAgent, createdAt := now }
        let db2 := createToken db1 row now
        match sendRes with
        | .error e => (db2, .error (.send e))
        | .ok () => (db2, .ok ())

/-- `AuthService.ValidateResetToken` composed: resolve by secret (with
the lazy expiry transition persisted), then `IsValid`. -/
def validateResetToken (db : Store) (secret : String) (now : Int) :
    Store × Except ServiceError Unit :=
  match findByToken db secret now with
  | (db1, .error _) => (db1, .error .invalidToken)
  | (db1, .ok tok) =>
    if ¬ tok.isValid now then (db1, .error .invalidToken)
    else (db1, .ok ())

/-- `AuthService.ResetPassword` composed: strength check, confirmation
check, token resolution and validity, owner resolution and Active check,
hash + persist, mark the token Used, invalidate all remaining Active
tokens of the user. -/
def resetPassword (db : Store) (secret : String)
    (password confirmPassword : List Char) (now : Int) :
    Store × Except ServiceError Unit :=
  match validatePasswordStrength password with
  | .error _ => (db, .error .passwordTooWeak)
  | .ok () =>
    if password ≠ confirmPassword then (db, .error .passwordConfirmation)
    else
      match findByToken db secret now with
      | (db1, .error _) => (db1, .error .invalidToken)
      | (db1, .ok tok) =>
        if ¬ tok.isValid now then (db1, .error .invalidToken)
        else
          match findByID db1 tok.userId with
          | .error e => (db1, .error (.repo e))
          | .ok user =>
            if user.status ≠ .active then (db1, .error .userInactive)
            else
              match hashPassword password with
              | .error e => (db1, .error (.pw e))
              | .ok hashed =>
                let user1 := { user with passwordHash := hashed, failedLoginCount := 0 }
                match updateUser db1 user1 with
                | (db2, .error e) => (db2, .error (.repo e))
                | (db2, .ok ()) =>
                  match markTokenAsUsed db2 tok.id now with
                  | (db3, .error e) => (db3, .error (.repo e))
                  | (db3, .ok ()) => (invalidateAllUserTokens db3 user.id, .ok ())

/-! ## Concrete instances used by witnesses and counterexamples -/

/-- An Active user. -/
def exUser : User :=
  { id := 1, email := "a@x.com", phone := "+15550001", name := "Ana"
    passwordHash := bcryptHash "Xy12$abcd".toList, role := .client
    status := .active, failedLoginCount := 0, lastLoginAt := none }

/-- A Blocked user. -/
def exBlockedUser : User := { exUser with id := 2, email := "b@x.com", status := .blocked }

/-- A Pending (non-Active, non-Blocked) user. -/
def exPendingUser : User := { exUser with id := 3, email := "c@x.com", status := .pending }

/-- An Active user whose failed-login count has reached the default
maximum of 5. -/
def exLockedUser : User := { exUser with id := 4, email := "d@x.com", failedLoginCount := 5 }

/-- An Active SMS recovery token of `exUser`, created at time 8200. -/
def exSmsToken (i : Nat) : ResetToken :=
  { id := i, userId := 1, token := toString i, channel := .sms, status := .active
    expiresAt := 8500, usedAt := none, failedAttempts := 0
    ipAddress := "ip", userAgent := "ua", createdAt := 8200 }

/-- Store for the C4 scenario: `exUser` with 3 recovery tokens created
30 minutes (1800 s) before `now = 10000`. -/
def exRateDb : Store := ⟨[exUser], [exSmsToken 11, exSmsToken 12, exSmsToken 13]⟩

/-- An Active email recovery token of `exUser`, good until 20000. -/
def exMailToken : ResetToken :=
  { id := 7, userId := 1, token := "secret7", channel := .email, status := .active
    expiresAt := 20000, usedAt := none, failedAttempts := 0
    ipAddress := "ip", userAgent := "ua", createdAt := 9000 }

/-- A second outstanding Active token of the same user. -/
def exMailToken2 : ResetToken := { exMailToken with id := 8, token := "secret8", createdAt := 9100 }

/-- Store for the C5/C6 scenarios: one Active user with two outstanding
Active recovery tokens. -/
def exResetDb : Store := ⟨[exUser], [exMailToken, exMailToken2]⟩

/-- A Used (terminal) recovery token. -/
def exUsedToken : ResetToken :=
  { id := 5, userId := 1, token := "tkn", channel := .email, status := .used
    expiresAt := 100, usedAt := some 50, failedAttempts := 0
    ipAddress := "ip", userAgent := "ua", createdAt := 0 }

/-- Store holding only the Used token. -/
def exUsedDb : Store := ⟨[], [exUsedToken]⟩

/-- A JWT configuration. -/
def exJwtCfg : JWTConfig := ⟨"acc-secret", "ref-secret", "aurora"⟩

/-! ## Password strength: helper lemmas and claim C9 -/

/-- Presence count of the four character classes over the whole string
(the property side of claim C9). -/
def classCount (pw : List Char) : Nat :=
  (if pw.any isUpperRune then 1 else 0) + (if pw.any isLowerRune then 1 else 0) +
    (if pw.any isNumberRune then 1 else 0) + (if pw.any isSpecialRune then 1 else 0)

lemma isLowerRune_eq_false_of_upper {c : Char} (h : isUpperRune c = true) :
    isLowerRune c = false := by
  simp only [isUpperRune, Bool.and_eq_true, decide_eq_true_eq] at h
  simp only [isLowerRune, Bool.and_eq_false_iff, decide_eq_false_iff_not]
  left; omega

lemma isNumberRune_eq_false_of_upper {c : Char} (h : isUpperRune c = true) :
    isNumberRune c = false := by
  simp only [isUpperRune, Bool.and_eq_true, decide_eq_true_eq] at h
  simp only [isNumberRune, Bool.and_eq_false_iff, decide_eq_false_iff_not]
  right; omega

lemma isNumberRune_eq_false_of_lower {c : Char} (h : isLowerRune c = true) :
    isNumberRune c = false := by
  simp only [isLowerRune, Bool.and_eq_true, decide_eq_true_eq] at h
  simp only [isNumberRune, Bool.and_eq_false_iff, decide_eq_false_iff_not]
  right; omega

lemma specialRunes_eq :
    specialRunes = ['!','@','#','$','%','^','&','*','(',')','-','_','[',']',
      '\x7b','\x7d','|',';',':',',','.','<','>','?','/'] := by rfl

lemma isSpecialRune_disjoint {c : Char} (h : isSpecialRune c = true) :
    isUpperRune c = false ∧ isLowerRune c = false ∧ isNumberRune c = false := by
  have hm : c ∈ specialRunes := by
    simpa [isSpecialRune, List.contains_iff_exists_mem_beq] using h
  rw [specialRunes_eq] at hm
  fin_cases hm <;> decide

lemma isSpecialRune_eq_false_of_upper {c : Char} (h : isUpperRune c = true) :
    isSpecialRune c = false := by
  cases hs : isSpecialRune c
  · rfl
  · rcases isSpecialRune_disjoint hs with ⟨a, _, _⟩
    rw [h] at a
    exact absurd a (by simp)

lemma isSpecialRune_eq_false_of_lower {c : Char} (h : isLowerRune c = true) :
    isSpecialRune c = false := by
  cases hs : isSpecialRune c
  · rfl
  · rcases isSpecialRune_disjoint hs with ⟨_, a, _⟩
    rw [h] at a
    exact absurd a (by simp)

lemma isSpecialRune_eq_false_of_number {c : Char} (h : isNumberRune c = true) :
    isSpecialRune c = false := by
  cases hs : isSpecialRune c
  · rfl
  · rcases isSpecialRune_disjoint hs with ⟨_, _, a⟩
    rw [h] at a
    exact absurd a (by simp)

lemma classStep_hasUpper (f : ClassFlags) (c : Char) :
    (classStep f c).hasUpper = (f.hasUpper || isUpperRune c) := by
  unfold classStep
  split_ifs with h1 h2 h3 h4 <;> simp_all [Bool.not_eq_true]

lemma classStep_hasLower (f : ClassFlags) (c : Char) :
    (classStep f c).hasLower = (f.hasLower || isLowerRune c) := by
  unfold classStep
  split_ifs with h1 h2 h3 h4 <;>
    simp_all [Bool.not_eq_true, isLowerRune_eq_false_of_upper]

lemma classStep_hasNumber (f : ClassFlags) (c : Char) :
    (classStep f c).hasNumber = (f.hasNumber || isNumberRune c) := by
  unfold classStep
  split_ifs with h1 h2 h3 h4 <;>
    simp_all [Bool.not_eq_true, isNumberRune_eq_false_of_upper,
      isNumberRune_eq_false_of_lower]

lemma classStep_hasSpecial (f : ClassFlags) (c : Char) :
    (classStep f c).hasSpecial = (f.hasSpecial || isSpecialRune c) := by
  unfold classStep
  split_ifs with h1 h2 h3 h4 <;>
    simp_all [Bool.not_eq_true, isSpecialRune_eq_false_of_upper,
      isSpecialRune_eq_false_of_lower, isSpecialRune_eq_false_of_number]

lemma foldl_classStep (pw : List Char) (f : ClassFlags) :
    pw.foldl classStep f =
      ⟨f.hasUpper || pw.any isUpperRune, f.hasLower || pw.any isLowerRune,
        f.hasNumber || pw.any isNumberRune, f.hasSpecial || pw.any isSpecialRune⟩ := by
  induction pw generalizing f with
  | nil => simp
  | cons c tl ih =>
    simp only [List.foldl_cons, List.any_cons, ih, classStep_hasUpper,
      classStep_hasLower, classStep_hasNumber, classStep_hasSpecial, Bool.or_assoc]

lemma score_foldl_eq_classCount (pw : List Char) :
    (pw.foldl classStep ⟨false, false, false, false⟩).score = classCount pw := by
  have h := foldl_classStep pw ⟨false, false, false, false⟩
  simp only [Bool.false_or] at h
  rw [h]
  rfl

/-- **C9.** For every password string, `ValidatePasswordStrength` accepts
it iff its (byte) length is between 8 and 72 inclusive and at least 3 of
the 4 character classes (uppercase, lowercase, digit, defined punctuation
set) occur in it; otherwise it fails with the corresponding length error
(`ErrPasswordTooShort` / `ErrPasswordTooLong`) or `ErrPasswordTooWeak`. -/
theorem C9_validateStrength_iff (pw : List Char) :
    (validatePasswordStrength pw = .ok () ↔
      (MinPasswordLength ≤ goLen pw ∧ goLen pw ≤ MaxPasswordLength ∧
        3 ≤ classCount pw)) ∧
    (goLen pw < MinPasswordLength →
      validatePasswordStrength pw = .error (.lengthError .passwordTooShort)) ∧
    (MaxPasswordLength < goLen pw →
      validatePasswordStrength pw = .error (.lengthError .passwordTooLong)) ∧
    (MinPasswordLength ≤ goLen pw → goLen pw ≤ MaxPasswordLength →
      classCount pw < 3 →
      validatePasswordStrength pw = .error .passwordTooWeak) := by
  unfold validatePasswordStrength
  unfold validatePasswordLength
  unfold MinPasswordLength MaxPasswordLength
  split_ifs with h1 h2 <;>
    simp [score_foldl_eq_classCount] <;> omega

/-- Witness for C9 at concrete inputs: a strong password is accepted and
a 4-character one is rejected as too short. -/
theorem C9_witness :
    validatePasswordStrength ("Abc123!@".toList) = .ok () ∧
    validatePasswordStrength ("Ab1!".toList) =
      .error (.lengthError .passwordTooShort) :=
  ⟨(C9_validateStrength_iff ("Abc123!@".toList)).1.mpr (by decide),
    (C9_validateStrength_iff ("Ab1!".toList)).2.1 (by decide)⟩

/-! ## Claim C1: credential pair issuance -/

/-- **C1** (code bug). The claim states that generating a credential pair
always succeeds and the two tokens then verify per type. In the source,
`GenerateRefreshToken` builds the token with `jwt.SigningMethodES256` but
signs it with `[]byte(j.Config.RefreshSecret)`; `jwt-go`'s ECDSA signer
requires an `*ecdsa.PrivateKey` and rejects any other key type with
`ErrInvalidKeyType`. Hence `GenerateTokenPair` returns that error for
every user id, role, config and time, and no pair is ever issued (the
HMAC-only keyfunc of `validateToken` could also never verify an ES256
token). -/
theorem C1_generateTokenPair_always_fails (cfg : JWTConfig) (now : Int)
    (userID : Nat) (role : UserRole) :
    generateTokenPair cfg now userID role = .error .invalidKeyType := rfl

/-! ## Claims C2 and C3: login failure mapping -/

/-- **C2.** `AuthService.Login`, as a function of the user directory's
answer: an unmatched email (`ErrUserNotFound`) yields the generic
`ErrInvalidLogin` and never a not-found error; a returned user with
status Blocked yields `ErrUserBlocked`; a returned user with any other
non-Active status yields `ErrUserInactive` — for every configuration,
password-check outcome and pair-issuance outcome. -/
theorem C2_login_error_mapping (cfg : AuthConfig) (passwordOk : Bool)
    (pairRes : Except Nat Unit) :
    (loginFlow (.error .userNotFound) cfg passwordOk pairRes = .invalidLogin) ∧
    (∀ u : User, u.status = .blocked →
      loginFlow (.ok u) cfg passwordOk pairRes = .userBlocked) ∧
    (∀ u : User, u.status ≠ .active → u.status ≠ .blocked →
      loginFlow (.ok u) cfg passwordOk pairRes = .userInactive) := by
  refine ⟨rfl, ?_, ?_⟩
  · intro u h
    simp [loginFlow, h]
  · intro u h1 h2
    simp [loginFlow, h1, h2]

/-- Witness for C2: the mapping at a Blocked and at a Pending user under
the default configuration. -/
theorem C2_witness :
    loginFlow (.error .userNotFound) defaultAuthConfig true (.ok ()) = .invalidLogin ∧
    loginFlow (.ok exBlockedUser) defaultAuthConfig true (.ok ()) = .userBlocked ∧
    loginFlow (.ok exPendingUser) defaultAuthConfig true (.ok ()) = .userInactive :=
  ⟨(C2_login_error_mapping defaultAuthConfig true (.ok ())).1,
    (C2_login_error_mapping defaultAuthConfig true (.ok ())).2.1 exBlockedUser (by decide),
    (C2_login_error_mapping defaultAuthConfig true (.ok ())).2.2 exPendingUser
      (by decide) (by decide)⟩

/-- **C3.** For every Active user whose stored failed-login count has
reached the configured maximum, `Login` returns `ErrUserBlocked`
regardless of the password-check outcome (the result is the same for
both values of `passwordOk`, so the password is never consulted) and
regardless of the pair-issuance outcome. -/
theorem C3_login_lockout_before_password (cfg : AuthConfig) (u : User)
    (hact : u.status = .active)
    (hcnt : cfg.maxLoginAttempts ≤ u.failedLoginCount) :
    ∀ (passwordOk : Bool) (pairRes : Except Nat Unit),
      loginFlow (.ok u) cfg passwordOk pairRes = .userBlocked := by
  intro passwordOk pairRes
  simp [loginFlow, hact, hcnt]

/-- Witness for C3: an Active user with 5 failed logins under the
default configuration (maximum 5) is blocked even when the password
check would have succeeded. -/
theorem C3_witness :
    loginFlow (.ok exLockedUser) defaultAuthConfig true (.ok ()) = .userBlocked :=
  C3_login_lockout_before_password defaultAuthConfig exLockedUser (by decide)
    (by decide) true (.ok ())

/-! ## Claim C6: weak password aborts ResetPassword untouched -/

/-- **C6.** A `ResetPassword` call whose new password fails the strength
check returns `ErrPasswordTooWeak` and leaves the store exactly as it
was — in particular no token or user row is read or mutated, so an
Active token named in the request stays Active. -/
theorem C6_resetPassword_weak_password_no_mutation (db : Store)
    (secret : String) (password confirmPassword : List Char) (now : Int)
    (e : StrengthError)
    (h : validatePasswordStrength password = .error e) :
    resetPassword db secret password confirmPassword now =
      (db, .error .passwordTooWeak) := by
  simp [resetPassword, h]

/-- Witness for C6: a weak password ("abcdefgh", one character class)
against the store holding Active token "secret7"; the store — hence
the token's Active status — is unchanged. -/
theorem C6_witness :
    resetPassword exResetDb "secret7" ("abcdefgh".toList) ("abcdefgh".toList) 10000 =
      (exResetDb, .error .passwordTooWeak) :=
  C6_resetPassword_weak_password_no_mutation exResetDb "secret7"
    ("abcdefgh".toList) ("abcdefgh".toList) 10000 .passwordTooWeak (by decide)

/-! ## Claim C8: storage-error propagation -/

/-- **C8** (code bug). The claim states every collaborator
internal/storage error propagates unchanged to the caller. Two forgot-
password paths contradict it: `ForgotPasswordEmail` answers `nil`
(success) when `CountActiveTokensByUser` fails (`return nil` instead of
`return err`), and `ForgotPasswordSMS` answers `nil` when
`InvalidateAllUserTokens` fails. Here the storage error is the opaque
code 7, the user lookup having succeeded with an Active user; both
operations report success and the error is swallowed. -/
theorem C8_forgot_flows_swallow_storage_errors :
    forgotPasswordEmailFlow (.ok exUser) (.error 7) (.ok ()) (.ok "t")
        (.ok ()) (.ok ()) defaultAuthConfig = .ok ∧
    forgotPasswordSMSFlow (.ok exUser) (.ok 0) (.error 7) (.ok "123456")
        (.ok ()) (.ok ()) defaultAuthConfig = .ok := by
  constructor <;> rfl

/-! ## Claim C4: forgot-password rate limiting -/

/-- **C4** (code bug). The claim states every channel's rate check
counts the user's tokens created within the configured rolling rate
window (default 1 hour) and, at or above the limit (default 3), fails
with `ErrTooManyRequests` creating nothing and dispatching nothing. In
the source, `ForgotPasswordSMS` passes
`Config.ResetTokenEmailExpiration` (default 15 minutes) — not
`Config.ResetTokenRateWindow` — as the window. Concretely: `exUser` has
3 tokens created 1800 s before `now = 10000`, so the count over the
configured 1-hour window is 3 (first conjunct: at the limit, the claim
demands `ErrTooManyRequests`); yet the SMS operation under the default
configuration succeeds and a fourth token row is created and the SMS
dispatched (remaining conjuncts). (`CountActiveTokensByUser` also
ignores token status entirely, despite the claim's "counting active
tokens".) -/
theorem C4_sms_rate_window_bug :
    countActiveTokensByUser exRateDb 1 defaultAuthConfig.resetTokenRateWindow 10000 = 3 ∧
    (forgotPasswordSMS exRateDb defaultAuthConfig "+15550001" "ip" "ua"
        "123456" 99 (.ok ()) 10000).2 = .ok () ∧
    (forgotPasswordSMS exRateDb defaultAuthConfig "+15550001" "ip" "ua"
        "123456" 99 (.ok ()) 10000).1.tokens.length = 4 := by
  refine ⟨by decide, by decide, by decide⟩

/-! ## Claim C7: terminal token statuses -/

/-- **C7 counterexample.** The claim says no store operation ever moves
a token out of a terminal status (Used/Expired/Revoked). But
`TokenRepository.InvalidateToken` sets status `REVOKED` unconditionally:
applied to the Used token `exUsedToken` (id 5), the stored row's status
becomes Revoked. (`MarkTokenAsUsed` and `IncrementFailedAttempts`
likewise never check the current status.) -/
theorem C7_counterexample :
    exUsedToken.status = .used ∧
    (invalidateToken exUsedDb 5).1.tokens =
      [{ exUsedToken with status := .revoked }] := by
  constructor <;> rfl

/-- **C7 amended.** Terminal statuses are absorbing only for
find-by-secret and bulk invalidation: a token whose status is not Active
is kept verbatim (same status) by `FindByToken`'s lazy-expiry write and
by `InvalidateAllUserTokens`; `MarkTokenAsUsed`, `InvalidateToken` and
`IncrementFailedAttempts` overwrite the status without checking it.
(`hids`: row ids are unique, as for a primary-key column.) -/
theorem C7_amended_terminal_preserved (db : Store) (secret : String)
    (now : Int) (userId : Nat) (t : ResetToken) (hmem : t ∈ db.tokens)
    (hterm : t.status ≠ .active)
    (hids : ∀ t' ∈ db.tokens, t'.id = t.id → t' = t) :
    t ∈ (findByToken db secret now).1.tokens ∧
    t ∈ (invalidateAllUserTokens db userId).tokens := by
  constructor
  · unfold findByToken
    cases hf : db.tokens.find? (fun r => r.token == secret) with
    | none => simpa using hmem
    | some t0 =>
      simp only []
      cases ht0 : t0.status with
      | used => simp only [ht0]; exact hmem
      | expired => simp only [ht0]; exact hmem
      | revoked => simp only [ht0]; exact hmem
      | active =>
        simp only [ht0]
        by_cases hexp : t0.expiresAt < now
        · have hne : (t.id == t0.id) = false := by
            by_contra hx
            have hid : t.id = t0.id := by
              cases hy : (t.id == t0.id) with
              | false => exact absurd hy hx
              | true => exact eq_of_beq hy
            have heq := hids t0 (List.mem_of_find?_eq_some hf) hid.symm
            rw [heq] at ht0
            exact hterm ht0
          simp only [hexp, if_true]
          refine List.mem_map.mpr ⟨t, hmem, ?_⟩
          simp [hne]
        · simp only [hexp, if_false]
          exact hmem
  · unfold invalidateAllUserTokens
    refine List.mem_map.mpr ⟨t, hmem, ?_⟩
    have hsf : (t.status == TokenStatus.active) = false := by
      cases hy : (t.status == TokenStatus.active) with
      | false => rfl
      | true => exact absurd (eq_of_beq hy) hterm
    simp [hsf]

/-- Witness for C7-amended: the Used token `exUsedToken` survives both a
`FindByToken` lookup (for an unrelated secret) and a bulk invalidation
for its user. -/
theorem C7_amended_witness :
    exUsedToken ∈ (findByToken exUsedDb "other" 60).1.tokens ∧
    exUsedToken ∈ (invalidateAllUserTokens exUsedDb 1).tokens :=
  C7_amended_terminal_preserved exUsedDb "other" 60 1 exUsedToken
    (by decide) (by decide) (by decide)

/-! ## Shared lemmas about the repositories and the password utility -/

lemma validatePasswordLength_ok_of_strength {pw : List Char}
    (h : validatePasswordStrength pw = .ok ()) :
    validatePasswordLength pw = .ok () := by
  unfold validatePasswordStrength at h
  cases hl : validatePasswordLength pw with
  | error e => rw [hl] at h; cases h
  | ok u => cases u; rfl

lemma hashPassword_ok_of_strength {pw : List Char}
    (h : validatePasswordStrength pw = .ok ()) :
    hashPassword pw = .ok (bcryptHash pw) := by
  unfold hashPassword
  rw [validatePasswordLength_ok_of_strength h]

lemma findByID_ok {db : Store} {id : Nat} {u : User}
    (h : findByID db id = .ok u) :
    u ∈ db.users ∧ u.id = id ∧ u.status = .active := by
  unfold findByID at h
  cases hf : db.users.find? (fun v => v.id == id && v.status == .active) with
  | none => rw [hf] at h; cases h
  | some v =>
    rw [hf] at h
    cases h
    have hp := List.find?_some hf
    have hm := List.mem_of_find?_eq_some hf
    simp only [Bool.and_eq_true, beq_iff_eq] at hp
    exact ⟨hm, hp.1, hp.2⟩

lemma findByEmail_ok {db : Store} {email : String} {u : User}
    (h : findByEmail db email = .ok u) :
    u ∈ db.users ∧ u.email = email ∧ u.status = .active := by
  unfold findByEmail at h
  cases hf : db.users.find? (fun v => v.email == email && v.status == .active) with
  | none => rw [hf] at h; cases h
  | some v =>
    rw [hf] at h
    cases h
    have hp := List.find?_some hf
    have hm := List.mem_of_find?_eq_some hf
    simp only [Bool.and_eq_true, beq_iff_eq] at hp
    exact ⟨hm, hp.1, hp.2⟩

lemma findByPhone_ok {db : Store} {phone : String} {u : User}
    (h : findByPhone db phone = .ok u) :
    u ∈ db.users ∧ u.phone = phone ∧ u.status = .active := by
  unfold findByPhone at h
  cases hf : db.users.find? (fun v => v.phone == phone && v.status == .active) with
  | none => rw [hf] at h; cases h
  | some v =>
    rw [hf] at h
    cases h
    have hp := List.find?_some hf
    have hm := List.mem_of_find?_eq_some hf
    simp only [Bool.and_eq_true, beq_iff_eq] at hp
    exact ⟨hm, hp.1, hp.2⟩

lemma findByToken_ok_of_valid {db : Store} {secret : String} {now : Int}
    {tok : ResetToken}
    (hfind : db.tokens.find? (fun t => t.token == secret) = some tok)
    (hactive : tok.status = .active) (hexp : now < tok.expiresAt) :
    findByToken db secret now = (db, .ok tok) := by
  unfold findByToken
  rw [hfind]
  simp only [hactive]
  have hlt : ¬ (tok.expiresAt < now) := by omega
  simp [hlt]

/-! ## Claim C5: ResetPassword success postconditions -/

/-- **C5.** When `ResetPassword` succeeds — strong password repeated as
its own confirmation, the secret resolving to an Active unexpired
record, the owning user resolving as Active — the final store
satisfies: the call returns success; every user row with the owner's
id carries a password hash verifying the new password and a zero
failed-login count; every token row with the redeemed token's id has
status Used; and no token row of that user is left Active. -/
theorem C5_resetPassword_success_postconditions (db : Store) (secret : String)
    (pw : List Char) (now : Int) (tok : ResetToken) (user : User)
    (hstr : validatePasswordStrength pw = .ok ())
    (hfind : db.tokens.find? (fun t => t.token == secret) = some tok)
    (hactive : tok.status = .active)
    (hexp : now < tok.expiresAt)
    (huser : findByID db tok.userId = .ok user) :
    (resetPassword db secret pw pw now).2 = .ok () ∧
    (∀ u ∈ (resetPassword db secret pw pw now).1.users, u.id = user.id →
      verifyPassword u.passwordHash pw = true ∧ u.failedLoginCount = 0) ∧
    (∀ t ∈ (resetPassword db secret pw pw now).1.tokens, t.id = tok.id →
      t.status = .used) ∧
    (∀ t ∈ (resetPassword db secret pw pw now).1.tokens, t.userId = user.id →
      t.status ≠ .active) := by
  obtain ⟨humem, huid, hustat⟩ := findByID_ok huser
  have hany : db.users.any (fun u0 => u0.id == user.id) = true :=
    List.any_eq_true.mpr ⟨user, humem, by simp⟩
  have hmkfind : ∃ t', db.tokens.find? (fun r => r.id == tok.id) = some t' := by
    cases hmk : db.tokens.find? (fun r => r.id == tok.id) with
    | some t' => exact ⟨t', rfl⟩
    | none =>
      have := List.find?_eq_none.mp hmk tok (List.mem_of_find?_eq_some hfind)
      simp at this
  obtain ⟨t', hmk⟩ := hmkfind
  have ht'id : t'.id = tok.id := by
    have := List.find?_some hmk
    simpa using this
  have hred : resetPassword db secret pw pw now =
      (invalidateAllUserTokens
        { users := db.users.map (fun u0 =>
            if u0.id == user.id then
              { user with passwordHash := bcryptHash pw, failedLoginCount := 0 }
            else u0)
          tokens := db.tokens.map (fun r =>
            if r.id == t'.id then t'.markAsUsed now else r) } user.id,
        .ok ()) := by
    unfold resetPassword
    rw [hstr]
    simp only [ne_eq, not_true_eq_false, if_false, ite_false]
    rw [findByToken_ok_of_valid hfind hactive hexp]
    simp only []
    have hvalid : tok.isValid now = true := by
      simp [ResetToken.isValid, hactive, hexp]
    rw [hvalid]
    simp only [Bool.not_true, Bool.false_eq_true, if_false, ite_false]
    rw [huser]
    simp only [hustat, ne_eq, not_true_eq_false, if_false, ite_false]
    rw [hashPassword_ok_of_strength hstr]
    unfold updateUser
    simp only [hany, if_true]
    unfold markTokenAsUsed
    simp only [hmk]
  refine ⟨by rw [hred], ?_, ?_, ?_⟩
  · rw [hred]
    intro u hu hid
    have hu' : u ∈ db.users.map (fun u0 =>
        if u0.id == user.id then
          { user with passwordHash := bcryptHash pw, failedLoginCount := 0 }
        else u0) := hu
    obtain ⟨u0, hu0, hfu⟩ := List.mem_map.mp hu'
    by_cases h0 : (u0.id == user.id) = true
    · rw [if_pos h0] at hfu
      rw [← hfu]
      exact ⟨by simp [verifyPassword], rfl⟩
    · rw [if_neg h0] at hfu
      rw [← hfu] at hid
      exact absurd (by simp [hid]) h0
  · rw [hred]
    intro t ht htid
    have ht2 : t ∈ (db.tokens.map (fun r =>
        if r.id == t'.id then t'.markAsUsed now else r)).map (fun r =>
          if r.userId == user.id && r.status == TokenStatus.active then
            { r with status := TokenStatus.expired } else r) := ht
    obtain ⟨r1, hr1, hgr⟩ := List.mem_map.mp ht2
    obtain ⟨r0, hr0, hhr⟩ := List.mem_map.mp hr1
    by_cases hid0 : (r0.id == t'.id) = true
    · rw [if_pos hid0] at hhr
      have hr1used : r1.status = .used := by rw [← hhr]; rfl
      have hteq : t = r1 := by
        rw [← hgr]
        have hcond : (r1.userId == user.id && r1.status == TokenStatus.active) = false := by
          simp [hr1used]
        rw [hcond]
        simp
      rw [hteq, hr1used]
    · rw [if_neg hid0] at hhr
      have hidkeep : t.id = r0.id := by
        rw [← hgr, ← hhr]
        by_cases hcnd : (r0.userId == user.id && r0.status == TokenStatus.active) = true
        · rw [if_pos hcnd]
        · rw [if_neg hcnd]
      rw [hidkeep] at htid
      rw [ht'id] at hid0
      exact absurd (by simp [htid]) hid0
  · rw [hred]
    intro t ht htuid
    have ht2 : t ∈ (db.tokens.map (fun r =>
        if r.id == t'.id then t'.markAsUsed now else r)).map (fun r =>
          if r.userId == user.id && r.status == TokenStatus.active then
            { r with status := TokenStatus.expired } else r) := ht
    obtain ⟨r1, hr1, hgr⟩ := List.mem_map.mp ht2
    by_cases hcnd : (r1.userId == user.id && r1.status == TokenStatus.active) = true
    · rw [if_pos hcnd] at hgr
      rw [← hgr]
      simp
    · rw [if_neg hcnd] at hgr
      rw [← hgr] at htuid ⊢
      intro hst
      simp only [Bool.and_eq_true, beq_iff_eq] at hcnd
      exact hcnd ⟨htuid, hst⟩

/-- Witness for C5: resetting with "Xy12$abcd" via the Active token
"secret7" of `exResetDb` succeeds and leaves no Active token for the
user. -/
theorem C5_witness :
    (resetPassword exResetDb "secret7" ("Xy12$abcd".toList)
        ("Xy12$abcd".toList) 10000).2 = .ok () ∧
    (∀ t ∈ (resetPassword exResetDb "secret7" ("Xy12$abcd".toList)
        ("Xy12$abcd".toList) 10000).1.tokens, t.userId = exUser.id →
      t.status ≠ .active) :=
  ⟨(C5_resetPassword_success_postconditions exResetDb "secret7"
      ("Xy12$abcd".toList) 10000 exMailToken exUser (by decide) (by decide)
      (by decide) (by decide) (by decide)).1,
    (C5_resetPassword_success_postconditions exResetDb "secret7"
      ("Xy12$abcd".toList) 10000 exMailToken exUser (by decide) (by decide)
      (by decide) (by decide) (by decide)).2.2.2⟩

/-! ## Claim C10: resolved users are always Active -/

lemma login_no_userInactive (db : Store) (cfg : AuthConfig)
    (jwtCfg : JWTConfig) (email : String) (pw : List Char) (now : Int) :
    (login db cfg jwtCfg email pw now).2 ≠ .error .userInactive := by
  unfold login
  cases hf : findByEmail db email with
  | error e => cases e <;> simp
  | ok u =>
    have hst := (findByEmail_ok hf).2.2
    simp only [hst, ne_eq, not_true_eq_false, if_false, ite_false]
    split_ifs with h1 h2 <;>
      first
      | simp
      | skip
    cases generateTokenPair jwtCfg now u.id u.role <;> simp

lemma refreshToken_no_userInactive (db : Store) (jwtCfg : JWTConfig)
    (tok : SignedJwt) (now : Int) :
    refreshToken db jwtCfg tok now ≠ .error .userInactive := by
  unfold refreshToken
  cases hv : validateRefreshToken jwtCfg tok now with
  | error e => simp [hv]
  | ok claims =>
    cases hf : findByID db claims.userID with
    | error e => simp [hv, hf]
    | ok u =>
      have hst := (findByID_ok hf).2.2
      simp only [hv, hf, hst, ne_eq, not_true_eq_false, if_false, ite_false,
        if_true]
      cases generateTokenPair jwtCfg now u.id u.role <;> simp

lemma getUserFromToken_status_active (db : Store) (jwtCfg : JWTConfig)
    (tok : SignedJwt) (now : Int) (u : User)
    (h : getUserFromToken db jwtCfg tok now = .ok u) :
    u.status = .active := by
  unfold getUserFromToken at h
  cases hv : validateAccessToken jwtCfg tok now with
  | error e => rw [hv] at h; cases h
  | ok claims =>
    rw [hv] at h
    simp only [] at h
    cases hf : findByID db claims.userID with
    | error e => rw [hf] at h; cases h
    | ok v =>
      rw [hf] at h
      cases h
      exact (findByID_ok hf).2.2

lemma forgotPasswordEmail_no_userInactive (db : Store) (cfg : AuthConfig)
    (email ip ua secret : String) (nid : Nat) (send : Except SendError Unit)
    (now : Int) :
    (forgotPasswordEmail db cfg email ip ua secret nid send now).2 ≠
      .error .userInactive := by
  unfold forgotPasswordEmail
  cases hf : findByEmail db email with
  | error e => cases e <;> simp
  | ok u =>
    have hst := (findByEmail_ok hf).2.2
    simp only [hst, ne_eq, not_true_eq_false, if_false, ite_false]
    split_ifs <;>
      first
      | simp
      | skip
    cases send <;> simp

lemma forgotPasswordSMS_no_userInactive (db : Store) (cfg : AuthConfig)
    (phone ip ua code : String) (nid : Nat) (send : Except SendError Unit)
    (now : Int) :
    (forgotPasswordSMS db cfg phone ip ua code nid send now).2 ≠
      .error .userInactive := by
  unfold forgotPasswordSMS
  cases hf : findByPhone db phone with
  | error e => cases e <;> simp
  | ok u =>
    have hst := (findByPhone_ok hf).2.2
    simp only [hst, ne_eq, not_true_eq_false, if_false, ite_false]
    split_ifs <;>
      first
      | simp
      | skip
    cases send <;> simp

lemma forgotPasswordWhatsApp_no_userInactive (db : Store) (cfg : AuthConfig)
    (phone ip ua code : String) (nid : Nat) (send : Except SendError Unit)
    (now : Int) :
    (forgotPasswordWhatsApp db cfg phone ip ua code nid send now).2 ≠
      .error .userInactive := by
  unfold forgotPasswordWhatsApp
  cases hf : findByPhone db phone with
  | error e => cases e <;> simp
  | ok u =>
    have hst := (findByPhone_ok hf).2.2
    simp only [hst, ne_eq, not_true_eq_false, if_false, ite_false]
    split_ifs <;>
      first
      | simp
      | skip
    cases send <;> simp

lemma resetPassword_no_userInactive (db : Store) (secret : String)
    (pw confirm : List Char) (now : Int) :
    (resetPassword db secret pw confirm now).2 ≠ .error .userInactive := by
  unfold resetPassword
  cases hs : validatePasswordStrength pw with
  | error e => simp [hs]
  | ok u =>
    cases u
    simp only [hs]
    split_ifs with hc
    · simp
    · rcases hft : findByToken db secret now with ⟨db1, res⟩
      cases res with
      | error e => simp [hft]
      | ok tok =>
        simp only [hft]
        split_ifs with hv
        case neg => simp
        cases hfu : findByID db1 tok.userId with
        | error e => simp [hfu]
        | ok user =>
          have hst := (findByID_ok hfu).2.2
          simp only [hfu]
          split_ifs with hstat
          case pos => exact absurd hst hstat
          cases hh : hashPassword pw with
          | error e => simp [hh]
          | ok hashed =>
            simp only [hh]
            generalize updateUser db1
                { user with passwordHash := hashed, failedLoginCount := 0 } = upr
            obtain ⟨db2, upres⟩ := upr
            cases upres with
            | error e => simp
            | ok uu =>
              cases uu
              simp only []
              generalize markTokenAsUsed db2 tok.id now = mkr
              obtain ⟨db3, mres⟩ := mkr
              cases mres with
              | error e => simp
              | ok mm =>
                cases mm
                simp

/-- **C10** (implicit). Every user record the directory lookups return
(by id, email or phone) has status Active — the SQL filters demand
`status = 'ACTIVE'` — and consequently, in every composed operation
(`Login`, `RefreshToken`, `GetUserFromToken`, the three forgot-password
channels, `ResetPassword`), a successfully resolved user is Active and
the branches handling a resolved non-Active user are unreachable: none
of these operations can return `ErrUserInactive`. -/
theorem C10_resolved_users_always_active :
    (∀ (db : Store) (id : Nat) (u : User),
      findByID db id = .ok u → u.status = .active) ∧
    (∀ (db : Store) (email : String) (u : User),
      findByEmail db email = .ok u → u.status = .active) ∧
    (∀ (db : Store) (phone : String) (u : User),
      findByPhone db phone = .ok u → u.status = .active) ∧
    (∀ (db : Store) (cfg : AuthConfig) (jwtCfg : JWTConfig) (email : String)
      (pw : List Char) (now : Int),
      (login db cfg jwtCfg email pw now).2 ≠ .error .userInactive) ∧
    (∀ (db : Store) (jwtCfg : JWTConfig) (tok : SignedJwt) (now : Int),
      refreshToken db jwtCfg tok now ≠ .error .userInactive) ∧
    (∀ (db : Store) (jwtCfg : JWTConfig) (tok : SignedJwt) (now : Int)
      (u : User),
      getUserFromToken db jwtCfg tok now = .ok u → u.status = .active) ∧
    (∀ (db : Store) (cfg : AuthConfig) (email ip ua secret : String)
      (nid : Nat) (send : Except SendError Unit) (now : Int),
      (forgotPasswordEmail db cfg email ip ua secret nid send now).2 ≠
        .error .userInactive) ∧
    (∀ (db : Store) (cfg : AuthConfig) (phone ip ua code : String)
      (nid : Nat) (send : Except SendError Unit) (now : Int),
      (forgotPasswordSMS db cfg phone ip ua code nid send now).2 ≠
        .error .userInactive) ∧
    (∀ (db : Store) (cfg : AuthConfig) (phone ip ua code : String)
      (nid : Nat) (send : Except SendError Unit) (now : Int),
      (forgotPasswordWhatsApp db cfg phone ip ua code nid send now).2 ≠
        .error .userInactive) ∧
    (∀ (db : Store) (secret : String) (pw confirm : List Char) (now : Int),
      (resetPassword db secret pw confirm now).2 ≠ .error .userInactive) :=
  ⟨fun _ _ _ h => (findByID_ok h).2.2,
    fun _ _ _ h => (findByEmail_ok h).2.2,
    fun _ _ _ h => (findByPhone_ok h).2.2,
    login_no_userInactive,
    refreshToken_no_userInactive,
    getUserFromToken_status_active,
    forgotPasswordEmail_no_userInactive,
    forgotPasswordSMS_no_userInactive,
    forgotPasswordWhatsApp_no_userInactive,
    resetPassword_no_userInactive⟩

/-- Witness for C10: the lookup of "a@x.com" in `exResetDb` resolves to
`exUser`, which the theorem certifies as Active; and a concrete login
against `exResetDb` does not return `ErrUserInactive`. -/
theorem C10_witness :
    exUser.status = .active ∧
    (login exResetDb defaultAuthConfig exJwtCfg "a@x.com"
        ("Xy12$abcd".toList) 10000).2 ≠ .error .userInactive :=
  ⟨C10_resolved_users_always_active.2.1 exResetDb "a@x.com" exUser (by decide),
    C10_resolved_users_always_active.2.2.2.1 exResetDb defaultAuthConfig
      exJwtCfg "a@x.com" ("Xy12$abcd".toList) 10000⟩


end Aurora
